import Mathlib

/-!
Verification development for the Health-Project appointment system.

The Python source (src/utils/patient_manager.py, src/utils/excel_manager.py,
src/utils/data_generator.py, src/app.py) is shallowly embedded below: the
pandas data frames become Lean lists of records, a missing file becomes
`Option.none`, and each operation becomes a pure function from state to
state.  String manipulation is re-implemented by structural recursion over
the underlying character lists so that every concrete run reduces inside the
kernel.
-/

/-! ## String helpers (kernel-reducible re-implementations) -/

/-- Whether a string is empty (Python falsiness of a string). -/
def strIsEmpty (s : String) : Bool := s.data.isEmpty

/-- Python `str.lower` restricted to ASCII, which covers every name the
system manipulates. -/
def strLower (s : String) : String := String.mk (s.data.map Char.toLower)

/-- Drop leading whitespace characters. -/
def dropLeadingWs : List Char → List Char
  | [] => []
  | c :: cs => if c.isWhitespace then dropLeadingWs cs else c :: cs

/-- Python `str.strip()`. -/
def strTrim (s : String) : String :=
  String.mk ((dropLeadingWs ((dropLeadingWs s.data).reverse)).reverse)

/-- Tokenizer for Python `str.split()` with no argument: split on runs of
whitespace, dropping empty tokens.  `acc` holds the current token reversed. -/
def wsTokensAux : List Char → List Char → List String
  | [], acc => if acc.isEmpty then [] else [String.mk acc.reverse]
  | c :: cs, acc =>
    if c.isWhitespace then
      if acc.isEmpty then wsTokensAux cs []
      else String.mk acc.reverse :: wsTokensAux cs []
    else wsTokensAux cs (c :: acc)

/-- Python `str.split()` (no separator argument). -/
def splitWs (s : String) : List String := wsTokensAux s.data []

/-- Python `str.replace(ch, '')` for a single character. -/
def removeChar (ch : Char) (s : String) : String :=
  String.mk (s.data.filter (fun c => c != ch))

/-- Split on a single-character separator; like Python `str.split(sep)`,
the result always has one more part than there are separators. -/
def splitOnCharAux (sep : Char) : List Char → List Char → List String
  | [], acc => [String.mk acc.reverse]
  | c :: cs, acc =>
    if c == sep then String.mk acc.reverse :: splitOnCharAux sep cs []
    else splitOnCharAux sep cs (c :: acc)

/-- Python `str.split(sep)` for a one-character separator. -/
def splitOnChar (sep : Char) (s : String) : List String := splitOnCharAux sep s.data []

/-- Nonempty and all decimal digits. -/
def strAllDigits (s : String) : Bool := !s.data.isEmpty && s.data.all Char.isDigit

/-- Accumulate the value of a digit string. -/
def digitsToNatAux : List Char → Nat → Nat
  | [], acc => acc
  | c :: cs, acc => digitsToNatAux cs (acc * 10 + (c.toNat - 48))

/-- Numeric value of an all-digit string. -/
def strToNat (s : String) : Nat := digitsToNatAux s.data 0

/-- Python `int(s)` on a stripped digit string: `none` models `ValueError`. -/
def pyInt (s : String) : Option Nat :=
  if strAllDigits (strTrim s) then some (strToNat (strTrim s)) else none

/-- Python `ch in s`. -/
def strContainsChar (s : String) (ch : Char) : Bool := s.data.contains ch

/-- First occurrences of each string, in order (set semantics for counting). -/
def dedupFirst : List String → List String → List String
  | [], _ => []
  | w :: ws, seen =>
    if seen.contains w then dedupFirst ws seen else w :: dedupFirst ws (w :: seen)

/-- Size of the intersection of the two token lists taken as sets: the value
of Python `len(set(ws1) & set(ws2))`. -/
def interCount (ws1 ws2 : List String) : Nat :=
  ((dedupFirst ws1 []).filter (fun w => ws2.contains w)).length

/-- Python `str.replace('PAT', '')`: remove every occurrence of `PAT`,
scanning left to right. -/
def removePAT : List Char → List Char
  | [] => []
  | 'P' :: 'A' :: 'T' :: rest => removePAT rest
  | c :: rest => c :: removePAT rest

/-- `patient_id.replace('PAT', '')` as the source applies it. -/
def strip_pat (s : String) : String := String.mk (removePAT s.data)

/-- Lexicographic comparison by code point, Python string `<`. -/
def charListLt : List Char → List Char → Bool
  | [], [] => false
  | [], _ :: _ => true
  | _ :: _, [] => false
  | a :: as, b :: bs => if a < b then true else if b < a then false else charListLt as bs

/-- The larger of two strings under Python ordering (pandas `Series.max`). -/
def strMax2 (a b : String) : String := if charListLt a.data b.data then b else a

/-- pandas `.max()` over string values: the lexicographic maximum. -/
def strMaxList (l : List String) : String := l.foldl strMax2 ""

/-! ## Dates (`PatientManager.parse_date`, `compare_dates`)

`parse_date` tries an ordered list of `strptime` formats; the first format
that parses wins.  A CPython format `%m/%d/%Y` matches one or two digits for
`%m` and `%d`, exactly four digits for `%Y` (exactly two for `%y`, mapped to
1969-2068), the literal separator in between, the whole string consumed, and
the resulting calendar date must be valid. -/

/-- Field order of a date format: month-day-year, day-month-year or
year-month-day. -/
inductive DOrder where
  | mdy : DOrder
  | dmy : DOrder
  | ymd : DOrder
deriving DecidableEq, Repr

/-- A parsed calendar date. -/
structure PDate where
  year : Nat
  month : Nat
  day : Nat
deriving DecidableEq, Repr

/-- Gregorian leap year. -/
def isLeapYear (y : Nat) : Bool := (y % 4 == 0 && y % 100 != 0) || y % 400 == 0

/-- Days in a month, as `datetime` validates them. -/
def daysInMonth (y m : Nat) : Nat :=
  if m == 2 then (if isLeapYear y then 29 else 28)
  else if m == 4 || m == 6 || m == 9 || m == 11 then 30
  else 31

/-- Construct a date, enforcing the `datetime` range checks. -/
def mkValidDate (y m d : Nat) : Option PDate :=
  if 1 ≤ y ∧ y ≤ 9999 ∧ 1 ≤ m ∧ m ≤ 12 ∧ 1 ≤ d ∧ d ≤ daysInMonth y m then
    some ⟨y, m, d⟩
  else none

/-- `%y` two-digit years: 0-68 map to 2000-2068, 69-99 to 1969-1999. -/
def expandTwoDigitYear (v : Nat) : Nat := if v ≤ 68 then 2000 + v else 1900 + v

/-- `datetime.strptime(s, fmt).date()` for one of the fifteen formats of the
source: `none` models `ValueError`. -/
def parse_with (ord : DOrder) (sep : Char) (two_digit_year : Bool) (s : String) :
    Option PDate :=
  match splitOnChar sep s with
  | [a, b, c] =>
    let fields :=
      match ord with
      | DOrder.mdy => (c, a, b)
      | DOrder.dmy => (c, b, a)
      | DOrder.ymd => (a, b, c)
    let ys := fields.1
    let ms := fields.2.1
    let ds := fields.2.2
    if strAllDigits ys && strAllDigits ms && strAllDigits ds
        && (if two_digit_year then decide (ys.length = 2) else decide (ys.length = 4))
        && decide (ms.length ≤ 2) && decide (ds.length ≤ 2) then
      let y := if two_digit_year then expandTwoDigitYear (strToNat ys) else strToNat ys
      mkValidDate y (strToNat ms) (strToNat ds)
    else none
  | _ => none

/-- The format list of `PatientManager.parse_date`, in source order. -/
def date_formats : List (DOrder × Char × Bool) :=
  [(DOrder.mdy, '/', false), (DOrder.mdy, '-', false), (DOrder.mdy, '.', false),
   (DOrder.dmy, '/', false), (DOrder.dmy, '-', false), (DOrder.dmy, '.', false),
   (DOrder.ymd, '/', false), (DOrder.ymd, '-', false), (DOrder.ymd, '.', false),
   (DOrder.mdy, '/', true), (DOrder.mdy, '-', true), (DOrder.mdy, '.', true),
   (DOrder.dmy, '/', true), (DOrder.dmy, '-', true), (DOrder.dmy, '.', true)]

/-- `PatientManager.parse_date`: empty input fails soft; otherwise the first
format that parses the stripped string wins. -/
def parse_date (s : String) : Option PDate :=
  if strIsEmpty s then none
  else date_formats.findSome? (fun fmt => parse_with fmt.1 fmt.2.1 fmt.2.2 (strTrim s))

/-- `PatientManager.compare_dates`: equal when both sides parse to the same
date, `false` otherwise (unparseable input never matches). -/
def compare_dates (d1 d2 : String) : Bool :=
  match parse_date d1, parse_date d2 with
  | some p1, some p2 => p1 == p2
  | _, _ => false

/-! ## Patients (`PatientManager`, rows of `patients.csv`) -/

/-- A row of `patients.csv`.  `visit_history := none` models a NaN cell. -/
structure Patient where
  patient_id : String
  name : String
  DOB : String
  phone : String
  email : String
  insurance_provider : String
  member_id : String
  group_number : String
  visit_history : Option String
deriving DecidableEq, Repr

/-- Honorific prefixes dropped by `PatientManager.normalize_name`. -/
def name_prefixes : List String := ["mr", "mrs", "ms", "dr", "prof"]

/-- Generational suffixes dropped by `PatientManager.normalize_name`. -/
def name_suffixes : List String := ["jr", "sr", "ii", "iii", "iv"]

/-- `PatientManager.normalize_name`: lowercase, split on whitespace, strip
periods and commas from each token, drop honorific prefixes and generational
suffixes, and rejoin with single spaces. -/
def normalize_name (name : String) : String :=
  if strIsEmpty name then ""
  else
    let words := splitWs (strLower (strTrim name))
    let cleaned := words.filterMap (fun w =>
      let wc := removeChar ',' (removeChar '.' w)
      if name_prefixes.contains wc || name_suffixes.contains wc then none
      else some wc)
    String.intercalate " " cleaned

/-- `PatientManager.partial_name_match`: the token sets of the two names
share at least two tokens. -/
def partial_name_match (name1 name2 : String) : Bool :=
  decide (2 ≤ interCount (splitWs name1) (splitWs name2))

/-- `PatientManager.lookup_patient` over the patient store (`none` models a
missing `patients.csv`): an exact pass on normalized-name equality plus date
agreement, then a fallback pass on partial name match plus date agreement;
the first qualifying row of either pass wins, `none` signals a new patient. -/
def lookup_patient (store : Option (List Patient)) (name dob : String) :
    Option Patient :=
  match store with
  | none => none
  | some df =>
    if df.isEmpty then none
    else
      let name_clean := normalize_name name
      match df.find? (fun p =>
          normalize_name p.name == name_clean && compare_dates p.DOB dob) with
      | some p => some p
      | none =>
        df.find? (fun p =>
          partial_name_match (normalize_name p.name) name_clean
            && compare_dates p.DOB dob)

/-- `PatientManager.update_patient_visit_history`: find the patient rows with
the given id, read the first one's history, replace the `New Patient`
sentinel (or a NaN cell) by the visit date, else append `"; "` and the date;
`false` when the store is missing or the id is absent. -/
def update_patient_visit_history (store : Option (List Patient))
    (pid visit_date : String) : Option (List Patient) × Bool :=
  match store with
  | none => (none, false)
  | some df =>
    if df.any (fun p => p.patient_id == pid) then
      let current :=
        match df.find? (fun p => p.patient_id == pid) with
        | some p => p.visit_history
        | none => none
      let newHistory :=
        match current with
        | none => visit_date
        | some h => if h == "New Patient" then visit_date else h ++ "; " ++ visit_date
      (some (df.map (fun p =>
        if p.patient_id == pid then { p with visit_history := some newHistory } else p)),
        true)
    else (some df, false)

/-! ## Slots and appointments (`ExcelManager`, `DataGenerator`) -/

/-- A row of `doctor_schedule.xlsx`. -/
structure Slot where
  slot_id : String
  doctor : String
  date : PDate
  time : String
  available : Bool
  duration_minutes : Nat
  patient_name : String
  notes : String
deriving DecidableEq, Repr

/-- A row of `appointments.xlsx` (the `Created_Date` column, a wall-clock
timestamp, is omitted; no claim concerns it). -/
structure AppointmentRecord where
  appointment_id : String
  patient_name : String
  dob : String
  phone : String
  email : String
  doctor : String
  date : PDate
  time : String
  duration_minutes : Nat
  status : String
  insurance_carrier : String
  member_id : String
  group_number : String
  patient_type : String
  notes : String
deriving DecidableEq, Repr

/-- The `appointment` sub-dictionary of the per-request `patient_data`. -/
structure AppointmentSel where
  date : PDate
  time : String
  duration : Nat
  slot_id : Option String
deriving DecidableEq, Repr

/-- The `patient_data` dictionary `app.process_appointment_form` assembles
and `ExcelManager.book_appointment` consumes. -/
structure PatientData where
  name : String
  dob : String
  phone : String
  email : String
  doctor : String
  carrier : String
  member_id : String
  group_number : String
  is_returning : Bool
  appointment : AppointmentSel
deriving DecidableEq, Repr

/-- The persistent files the booking path reads and writes.  `none` models a
file that does not exist (`appointments.xlsx` is auto-created by
`book_appointment`, so it is a plain list). -/
structure SysState where
  appointments : List AppointmentRecord
  schedule : Option (List Slot)
  patients : Option (List Patient)
deriving DecidableEq, Repr

/-- `ExcelManager.update_doctor_schedule`: when the request carries a
(non-empty) `slot_id` the row mask is *only* `Slot_ID == slot_id` — the
`Available` flag is not consulted; only the fallback mask (doctor, date,
time) requires `Available == True`.  Matching rows get `Available = False`,
the requesting patient's name, and a fixed note; `false` is returned when the
schedule file is missing or no row matches. -/
def update_doctor_schedule (schedule : Option (List Slot)) (pd : PatientData) :
    Option (List Slot) × Bool :=
  match schedule with
  | none => (none, false)
  | some df =>
    let fallbackMask : Slot → Bool := fun s =>
      s.doctor == pd.doctor && s.date == pd.appointment.date
        && s.time == pd.appointment.time && s.available
    let mask : Slot → Bool :=
      match pd.appointment.slot_id with
      | some sid => if strIsEmpty sid then fallbackMask else (fun s => s.slot_id == sid)
      | none => fallbackMask
    if df.any mask then
      (some (df.map (fun s =>
        if mask s then
          { s with available := false, patient_name := pd.name,
                   notes := "Booked via AI Agent" }
        else s)), true)
    else (some df, false)

/-- The id `DataGenerator.update_patient_csv_with_new_patient` would assign:
`PAT1000` for an empty store, else one plus the `int` of the *lexicographic*
maximum of the ids with `PAT` stripped; `none` models the `ValueError` its
`try/except` swallows when that maximum is not numeric. -/
def next_patient_id (df : List Patient) : Option String :=
  if df.isEmpty then some "PAT1000"
  else
    match pyInt (strMaxList (df.map (fun p => strip_pat p.patient_id))) with
    | some last_id => some ("PAT" ++ toString (last_id + 1))
    | none => none

/-- The fresh `patients.csv` row for a new patient (visit history starts as
the literal sentinel `New Patient`). -/
def new_patient_row (new_id : String) (pd : PatientData) : Patient :=
  { patient_id := new_id, name := pd.name, DOB := pd.dob, phone := pd.phone,
    email := pd.email, insurance_provider := pd.carrier,
    member_id := pd.member_id, group_number := pd.group_number,
    visit_history := some "New Patient" }

/-- `DataGenerator.update_patient_csv_with_new_patient`: a missing
`patients.csv` is treated as empty (and gets created), the new row is
appended; on the swallowed `ValueError` the store is left unchanged and
`None` is returned. -/
def update_patient_csv_with_new_patient (store : Option (List Patient))
    (pd : PatientData) : Option (List Patient) × Option String :=
  let df := store.getD []
  match next_patient_id df with
  | none => (store, none)
  | some new_id => (some (df ++ [new_patient_row new_id pd]), some new_id)

/-- The `appointment_record` dictionary `ExcelManager.book_appointment`
builds (its generated id is passed in as a parameter). -/
def mk_appointment_record (appointment_id : String) (pd : PatientData) :
    AppointmentRecord :=
  { appointment_id := appointment_id, patient_name := pd.name, dob := pd.dob,
    phone := pd.phone, email := pd.email, doctor := pd.doctor,
    date := pd.appointment.date, time := pd.appointment.time,
    duration_minutes := pd.appointment.duration, status := "Confirmed",
    insurance_carrier := pd.carrier, member_id := pd.member_id,
    group_number := pd.group_number,
    patient_type := if pd.is_returning then "Returning" else "New",
    notes := "" }

/-- `ExcelManager.book_appointment`.  Order matters and is the source's:
(1) append the record to `appointments.xlsx` (`persist_ok := false` injects a
write failure there, which the enclosing `try/except` turns into a `None`
return with nothing written); (2) call `update_doctor_schedule`, whose
boolean result is ignored; (3) for a non-returning patient, append to
`patients.csv` (that helper swallows its own failures).  Steps 2 and 3 can
no longer stop the function from reporting success. -/
def book_appointment (appointment_id : String) (persist_ok : Bool)
    (st : SysState) (pd : PatientData) : SysState × Option String :=
  if !persist_ok then (st, none)
  else
    let st1 := { st with
      appointments := st.appointments ++ [mk_appointment_record appointment_id pd] }
    let st2 := { st1 with schedule := (update_doctor_schedule st1.schedule pd).1 }
    if pd.is_returning then (st2, some appointment_id)
    else
      ({ st2 with patients := (update_patient_csv_with_new_patient st2.patients pd).1 },
        some appointment_id)

/-- The slot dictionary `ExcelManager.get_available_slots` emits per row. -/
structure SlotChoice where
  slot_id : String
  doctor : String
  date : PDate
  time : String
  duration : Nat
deriving DecidableEq, Repr

/-- The projection of a schedule row into a `SlotChoice`. -/
def slot_view (s : Slot) : SlotChoice :=
  { slot_id := s.slot_id, doctor := s.doctor, date := s.date, time := s.time,
    duration := s.duration_minutes }

/-- `ExcelManager.get_available_slots`: rows with `Available == True`,
optionally narrowed by doctor (a truthy, i.e. non-empty, argument) and by
date, in the order the rows sit in the file; a missing schedule yields `[]`. -/
def get_available_slots (schedule : Option (List Slot)) (doctor : Option String)
    (date : Option PDate) : List SlotChoice :=
  match schedule with
  | none => []
  | some df =>
    let avail : List Slot := df.filter (fun s => s.available)
    let byDoctor : List Slot :=
      match doctor with
      | some d => if strIsEmpty d then avail else avail.filter (fun s => s.doctor == d)
      | none => avail
    let byDate : List Slot :=
      match date with
      | some dt => byDoctor.filter (fun s => s.date == dt)
      | none => byDoctor
    byDate.map slot_view

/-! ## The booking form (`app.main` validation, `app.process_appointment_form`) -/

/-- The form fields `app.main` validates on submission. -/
structure FormInput where
  full_name : String
  phone : String
  email : String
  preferred_doctor : String
  selected_time_slot : String
  insurance_provider : String
  group_number : String
  member_id : String
deriving DecidableEq, Repr

/-- The batch validation of `app.main` (src/app.py lines 245-268): every
check appends its own message to `errors`, none stops the scan.  The
`'selected_time_slot' in locals()` guard is always true in the source, since
every branch above assigns the variable. -/
def validate_form (f : FormInput) : List String :=
  (if strIsEmpty f.full_name || decide ((strTrim f.full_name).length < 2) then
    ["Please enter your full name"] else [])
  ++ (if strIsEmpty f.phone then ["Please enter your phone number"] else [])
  ++ (if strIsEmpty f.email || !strContainsChar f.email '@' then
    ["Please enter a valid email address"] else [])
  ++ (if f.preferred_doctor == "Select a doctor..." then
    ["Please select a preferred doctor"] else [])
  ++ (if f.selected_time_slot == "Select a time slot..." then
    ["Please select an appointment time slot"] else [])
  ++ (if f.insurance_provider == "Select your insurance..." then
    ["Please select your insurance provider"] else [])
  ++ (if strIsEmpty f.member_id then ["Please enter your insurance member ID"] else [])

/-- The booking core of `app.process_appointment_form` (src/app.py lines
402-459), reached with a selected slot: look the patient up, derive
`is_returning` and the 30/60-minute duration, assemble `patient_data` and
call `ExcelManager.book_appointment`. -/
def process_appointment_form (appointment_id : String) (persist_ok : Bool)
    (st : SysState) (full_name dob_str phone email preferred_doctor
      insurance_provider member_id group_number : String)
    (selected_slot : SlotChoice) : SysState × Option String :=
  let patient_record := lookup_patient st.patients full_name dob_str
  let is_returning := patient_record.isSome
  let duration := if is_returning then 30 else 60
  let pd : PatientData :=
    { name := strTrim full_name, dob := dob_str, phone := strTrim phone,
      email := strLower (strTrim email), doctor := preferred_doctor,
      carrier := insurance_provider, member_id := strTrim member_id,
      group_number := if strIsEmpty group_number then "" else strTrim group_number,
      is_returning := is_returning,
      appointment := { date := selected_slot.date, time := selected_slot.time,
                       duration := duration, slot_id := some selected_slot.slot_id } }
  book_appointment appointment_id persist_ok st pd

/-! ## Reminder scheduling

Modelled from the spec: the reminder scheduler
(`agents/notification_agent.py`, `schedule_reminders`) is not among the
repository's source files; only its call site (src/app.py line 450) is.
Spec 4.4: for each configured lead-time offset (default 24h, 2h, 30m before
start) compute `fire_at = appointment_start - offset` and create a job only
when that `fire_at` is still strictly in the future relative to now; past
offsets are dropped silently.  Times are minutes on an absolute clock. -/

/-- Modelled from the spec: a `ReminderJob` for one offset of one
appointment (`dispatched` starts false and is owned by the consumer). -/
structure ReminderJob where
  appointment_id : String
  fire_at : Int
  offset : Int
deriving DecidableEq, Repr

/-- Modelled from the spec: the default lead-time offsets, in minutes
(24 hours, 2 hours, 30 minutes). -/
def reminder_offsets : List Int := [1440, 120, 30]

/-- Modelled from the spec: `schedule(appointment)` — one job per configured
offset whose `fire_at = start - offset` lies strictly in the future. -/
def schedule_reminders (appointment_id : String) (start now : Int) :
    List ReminderJob :=
  reminder_offsets.filterMap (fun off =>
    let f := start - off
    if now < f then some { appointment_id := appointment_id, fire_at := f, offset := off }
    else none)

/-! ## Concrete fixtures used by the claim theorems -/

/-- A returning patient on file, with a single past visit. -/
def patJohn : Patient :=
  { patient_id := "PAT1000", name := "John Smith", DOB := "01/02/1980",
    phone := "555", email := "j@x.com", insurance_provider := "Aetna",
    member_id := "M1", group_number := "G1", visit_history := some "03/04/2021" }

/-- The same record still carrying the `New Patient` sentinel. -/
def patNew : Patient := { patJohn with visit_history := some "New Patient" }

/-- A schedule row already booked: unavailable and owned by Alice Adams. -/
def slotHeld : Slot :=
  { slot_id := "SLOT_1", doctor := "Dr. Smith", date := ⟨2025, 3, 1⟩,
    time := "09:00", available := false, duration_minutes := 30,
    patient_name := "Alice Adams", notes := "Booked" }

/-- The same row while still free. -/
def slotFree : Slot := { slotHeld with available := true, patient_name := "", notes := "" }

/-- A booking request from Bob Stone naming `SLOT_1` by id. -/
def pdBob : PatientData :=
  { name := "Bob Stone", dob := "02/03/1991", phone := "5550", email := "b@x.com",
    doctor := "Dr. Smith", carrier := "Cigna", member_id := "M2", group_number := "",
    is_returning := true,
    appointment := { date := ⟨2025, 3, 1⟩, time := "09:00", duration := 30,
                     slot_id := some "SLOT_1" } }

/-- The slot choice the form passes for `slotFree`. -/
def choiceFree : SlotChoice := slot_view slotFree

/-- System state with John Smith on file and `SLOT_1` free. -/
def stRet : SysState :=
  { appointments := [], schedule := some [slotFree], patients := some [patJohn] }

/-- An available slot dated March 2. -/
def slotMar2 : Slot :=
  { slot_id := "S1", doctor := "Dr. Smith", date := ⟨2025, 3, 2⟩, time := "09:00",
    available := true, duration_minutes := 30, patient_name := "", notes := "" }

/-- An available slot dated March 1, listed after `slotMar2` in the store. -/
def slotMar1 : Slot := { slotMar2 with slot_id := "S2", date := ⟨2025, 3, 1⟩ }

/-- Numeric key ordering calendar dates chronologically. -/
def date_key (d : PDate) : Nat := d.year * 10000 + d.month * 100 + d.day

/-- What `SLOT_1` looks like after Bob Stone re-books it by id: still
unavailable, but the owner has been replaced. -/
def slotOverwritten : Slot :=
  { slotHeld with patient_name := "Bob Stone", notes := "Booked via AI Agent" }

/-! ## C1 -/

/-- Claim C1 (code_bug evidence): booking `SLOT_1` by `slot_id` while the
slot is already unavailable and owned by Alice Adams still succeeds — the
booking returns an appointment id, and the slot's owner is overwritten with
Bob Stone.  `update_doctor_schedule` masks rows by `Slot_ID` alone when a
`slot_id` is supplied, never consulting `Available`, and
`book_appointment` ignores its boolean result, so an already-taken slot is
silently re-booked. -/
theorem c1_unavailable_slot_rebooked :
    slotHeld.available = false
    ∧ slotHeld.patient_name = "Alice Adams"
    ∧ (book_appointment "APT2" true ⟨[], some [slotHeld], some [patJohn]⟩ pdBob).2
        = some "APT2"
    ∧ (book_appointment "APT2" true ⟨[], some [slotHeld], some [patJohn]⟩ pdBob).1.schedule
        = some [slotOverwritten] := by
  decide

/-! ## C2 -/

/-- Claim C2 (code_bug evidence): `book_appointment` persists the
appointment record *before* the slot reservation and ignores the
reservation's result.  With a schedule holding no matching slot the
reservation step fails (`update_doctor_schedule` returns `false`), yet the
appointment row is written and success is reported — the inconsistent state
the claim forbids, with no compensating release.  Conversely, when the
appointment persist itself fails, the function returns failure with the
state untouched, so the claim's premise (reservation succeeded, then the
persist failed) is unreachable in this code order. -/
theorem c2_no_compensating_release :
    (update_doctor_schedule (some []) pdBob).2 = false
    ∧ (book_appointment "APT3" true ⟨[], some [], some [patJohn]⟩ pdBob).2 = some "APT3"
    ∧ (book_appointment "APT3" true ⟨[], some [], some [patJohn]⟩ pdBob).1.appointments
        = [mk_appointment_record "APT3" pdBob]
    ∧ (book_appointment "APT3" true ⟨[], some [], some [patJohn]⟩ pdBob).1.schedule
        = some []
    ∧ book_appointment "APT4" false ⟨[], some [], some [patJohn]⟩ pdBob
        = (⟨[], some [], some [patJohn]⟩, none) := by
  decide

/-! ## C3 -/

/-- Claim C3 counterexample: John Smith is on file with visit history
`03/04/2021`; booking him again succeeds as a Returning patient with
duration 30, but the patient store is left exactly as it was — his visit
history gains no entry, contradicting the claim's "gains exactly one new
entry" (the booking path never calls
`PatientManager.update_patient_visit_history`). -/
theorem c3_returning_history_unchanged :
    (process_appointment_form "APT1" true stRet "John Smith" "01/02/1980" "p"
        "e@x.com" "Dr. Smith" "Aetna" "M1" "" choiceFree).2 = some "APT1"
    ∧ (process_appointment_form "APT1" true stRet "John Smith" "01/02/1980" "p"
        "e@x.com" "Dr. Smith" "Aetna" "M1" "" choiceFree).1.appointments.map
          (fun a => (a.duration_minutes, a.patient_type)) = [(30, "Returning")]
    ∧ (process_appointment_form "APT1" true stRet "John Smith" "01/02/1980" "p"
        "e@x.com" "Dr. Smith" "Aetna" "M1" "" choiceFree).1.patients
        = some [patJohn]
    ∧ patJohn.visit_history = some "03/04/2021" := by
  decide

/-! ## C7 -/

/-- Claim C7 counterexample: with the store listing the March 2 slot before
the March 1 slot, `get_available_slots` (no filters) returns them in store
order — the first result is dated strictly later than the second, so the
output is not ordered by (date, time) ascending. -/
theorem c7_not_sorted :
    get_available_slots (some [slotMar2, slotMar1]) none none
      = [slot_view slotMar2, slot_view slotMar1]
    ∧ date_key (slot_view slotMar1).date < date_key (slot_view slotMar2).date := by
  decide

/-! ## C4 -/

/-- The spec's description of identity resolution, written from its words:
an exact pass (first record whose normalized name equals the normalized
candidate name and whose date of birth agrees), then a fallback pass (first
record whose normalized-name token set shares at least two tokens with the
candidate's and whose date of birth agrees), else no match. -/
def resolve_spec (df : List Patient) (name dob : String) : Option Patient :=
  match df.find? (fun p =>
      normalize_name p.name == normalize_name name && compare_dates p.DOB dob) with
  | some p => some p
  | none =>
    df.find? (fun p =>
      partial_name_match (normalize_name p.name) (normalize_name name)
        && compare_dates p.DOB dob)

/-- Claim C4 (confirmed): over any patient store, `lookup_patient` computes
exactly the two-pass resolution the spec describes — exact pass first, the
fallback pass only when the exact pass finds nothing, first qualifying
record in store iteration order within each pass, `none` (New) otherwise. -/
theorem c4_two_pass_resolution (df : List Patient) (name dob : String) :
    lookup_patient (some df) name dob = resolve_spec df name dob := by
  cases df with
  | nil => rfl
  | cons p ps => rfl

/-! ## C5 -/

/-- `lookup_patient` consumes the candidate name only through
`normalize_name`: names with the same normal form resolve identically. -/
theorem lookup_patient_congr (store : Option (List Patient)) (dob : String)
    {n1 n2 : String} (h : normalize_name n1 = normalize_name n2) :
    lookup_patient store n1 dob = lookup_patient store n2 dob := by
  cases store with
  | none => rfl
  | some df => simp only [lookup_patient, h]

/-- Claim C5 (confirmed): whenever the store holds a record whose normalized
name is `john smith` with a date of birth agreeing with `01/02/1980`, the
three formatting variants `"John Smith"`, `"john   smith"` and
`"Mr. John Smith Jr."` all resolve to the same existing patient:
normalization lowercases, collapses whitespace, strips the honorific prefix
and generational suffix, and strips periods from the tokens. -/
theorem c5_format_invariance (df : List Patient)
    (h : ∃ p ∈ df, normalize_name p.name = "john smith"
        ∧ compare_dates p.DOB "01/02/1980" = true) :
    lookup_patient (some df) "john   smith" "01/02/1980"
        = lookup_patient (some df) "John Smith" "01/02/1980"
    ∧ lookup_patient (some df) "Mr. John Smith Jr." "01/02/1980"
        = lookup_patient (some df) "John Smith" "01/02/1980"
    ∧ (lookup_patient (some df) "John Smith" "01/02/1980").isSome = true := by
  have e1 : normalize_name "John Smith" = "john smith" := by decide
  have e2 : normalize_name "john   smith" = "john smith" := by decide
  have e3 : normalize_name "Mr. John Smith Jr." = "john smith" := by decide
  refine ⟨lookup_patient_congr _ _ (e2.trans e1.symm),
    lookup_patient_congr _ _ (e3.trans e1.symm), ?_⟩
  obtain ⟨p, hp, hn, hd⟩ := h
  have hfind : (df.find? (fun q =>
      normalize_name q.name == normalize_name "John Smith"
        && compare_dates q.DOB "01/02/1980")).isSome := by
    rw [List.find?_isSome]
    exact ⟨p, hp, by simp [e1, hn, hd]⟩
  obtain ⟨q, hq⟩ := Option.isSome_iff_exists.mp hfind
  cases df with
  | nil => exact absurd hp (List.not_mem_nil p)
  | cons r rs =>
    simp only [lookup_patient, List.isEmpty_cons, Bool.false_eq_true, if_false]
    rw [hq]
    rfl

/-- Claim C5 witness: the concrete one-record store. -/
theorem c5_format_invariance_witness :
    lookup_patient (some [patJohn]) "john   smith" "01/02/1980"
        = lookup_patient (some [patJohn]) "John Smith" "01/02/1980"
    ∧ lookup_patient (some [patJohn]) "Mr. John Smith Jr." "01/02/1980"
        = lookup_patient (some [patJohn]) "John Smith" "01/02/1980"
    ∧ (lookup_patient (some [patJohn]) "John Smith" "01/02/1980").isSome = true :=
  c5_format_invariance [patJohn] ⟨patJohn, by decide, by decide, by decide⟩

/-! ## C6 -/

/-- Claim C6 (confirmed): validation is batched — for every submitted form
the error list has exactly one entry per violated required field (the seven
checks of src/app.py lines 245-268, each appending its own message), and the
claim's concrete scenario (missing name, missing phone, no slot selected,
everything else valid) yields exactly the three corresponding entries. -/
theorem c6_validation_batching :
    (∀ f : FormInput, (validate_form f).length =
      (if strIsEmpty f.full_name || decide ((strTrim f.full_name).length < 2)
        then 1 else 0)
      + (if strIsEmpty f.phone then 1 else 0)
      + (if strIsEmpty f.email || !strContainsChar f.email '@' then 1 else 0)
      + (if f.preferred_doctor == "Select a doctor..." then 1 else 0)
      + (if f.selected_time_slot == "Select a time slot..." then 1 else 0)
      + (if f.insurance_provider == "Select your insurance..." then 1 else 0)
      + (if strIsEmpty f.member_id then 1 else 0))
    ∧ validate_form
        ⟨"", "", "john@x.com", "Dr. Smith", "Select a time slot...", "Aetna", "", "M1"⟩
      = ["Please enter your full name", "Please enter your phone number",
         "Please select an appointment time slot"] := by
  constructor
  · intro f
    simp only [validate_form, List.length_append, apply_ite List.length,
      List.length_singleton, List.length_nil]
  · decide

/-- The three filters of `get_available_slots` merged into one predicate
(written innermost-last, the shape two `List.filter_filter` steps produce):
the slot is available, matches the doctor filter when one is given (an empty
doctor string is falsy and filters nothing), and matches the date filter
when one is given. -/
def slot_matches (doctor : Option String) (date : Option PDate) (s : Slot) : Bool :=
  (match date with
   | some dt => s.date == dt
   | none => true)
  && ((match doctor with
       | some d => if strIsEmpty d then true else s.doctor == d
       | none => true)
      && s.available)

/-- Claim C7 amended (the ordering clause corrected): `get_available_slots`
returns exactly the rows with `Available == True` that satisfy the optional
doctor and date filters, projected to slot dictionaries, *in store row
order* — the source applies three filters and never sorts by (date, time);
the read path writes nothing back, and a missing schedule file yields the
empty list. -/
theorem c7_filters_in_store_order (df : List Slot) (doctor : Option String)
    (date : Option PDate) :
    get_available_slots (some df) doctor date
      = (df.filter (slot_matches doctor date)).map slot_view
    ∧ get_available_slots none doctor date = [] := by
  constructor
  · cases doctor with
    | none =>
      cases date with
      | none =>
        simp [get_available_slots]
        exact congrArg _ (List.filter_congr fun a _ => by simp [slot_matches])
      | some dt =>
        simp [get_available_slots, List.filter_filter]
        exact congrArg _ (List.filter_congr fun a _ => by simp [slot_matches])
    | some d =>
      by_cases he : strIsEmpty d = true
      · cases date with
        | none =>
          simp [get_available_slots, he]
          exact congrArg _ (List.filter_congr fun a _ => by simp [slot_matches, he])
        | some dt =>
          simp [get_available_slots, he, List.filter_filter]
          exact congrArg _ (List.filter_congr fun a _ => by simp [slot_matches, he])
      · have he2 : strIsEmpty d = false := by
          revert he; cases strIsEmpty d <;> simp
        cases date with
        | none =>
          simp [get_available_slots, he2, List.filter_filter]
          exact congrArg _ (List.filter_congr fun a _ => by simp [slot_matches, he2])
        | some dt =>
          simp [get_available_slots, he2, List.filter_filter]
          exact congrArg _ (List.filter_congr fun a _ => by simp [slot_matches, he2])
  · rfl

/-! ## C8 -/

/-- Claim C8 (confirmed against the spec-modelled scheduler): for every
appointment and clock reading, the scheduler creates exactly one job per
configured offset whose `fire_at = start - offset` is strictly in the
future; an appointment starting in 10 minutes yields no jobs (every default
offset already passed), and one starting in 25 hours (1500 minutes) yields
exactly three jobs at start minus 24h, 2h and 30m. -/
theorem c8_reminder_offsets :
    (∀ (appointment_id : String) (start now : Int),
      schedule_reminders appointment_id start now =
        (reminder_offsets.filter (fun off => decide (now < start - off))).map
          (fun off =>
            { appointment_id := appointment_id, fire_at := start - off, offset := off }))
    ∧ (∀ (appointment_id : String) (now : Int),
        schedule_reminders appointment_id (now + 10) now = [])
    ∧ (∀ (appointment_id : String) (now : Int),
        schedule_reminders appointment_id (now + 1500) now =
          [{ appointment_id := appointment_id, fire_at := now + 60, offset := 1440 },
           { appointment_id := appointment_id, fire_at := now + 1380, offset := 120 },
           { appointment_id := appointment_id, fire_at := now + 1470, offset := 30 }]) := by
  refine ⟨?_, ?_, ?_⟩
  · intro aid start now
    by_cases h1 : now < start - 1440 <;> by_cases h2 : now < start - 120 <;>
      by_cases h3 : now < start - 30 <;>
      simp [schedule_reminders, reminder_offsets, h1, h2, h3]
  · intro aid now
    have h1 : ¬ now < now + 10 - 1440 := by omega
    have h2 : ¬ now < now + 10 - 120 := by omega
    have h3 : ¬ now < now + 10 - 30 := by omega
    simp [schedule_reminders, reminder_offsets, h1, h2, h3]
  · intro aid now
    have h1 : now < now + 60 := by omega
    have h2 : now < now + 1380 := by omega
    have h3 : now < now + 1470 := by omega
    have e1 : now + 1500 - 1440 = now + 60 := by omega
    have e2 : now + 1500 - 120 = now + 1380 := by omega
    have e3 : now + 1500 - 30 = now + 1470 := by omega
    simp only [schedule_reminders, reminder_offsets, List.filterMap_cons,
      List.filterMap_nil, e1, e2, e3, if_pos h1, if_pos h2, if_pos h3]

/-! ## C9 -/

/-- When the candidate date of birth does not parse, no stored date can
agree with it. -/
theorem compare_dates_of_parse_none {d2 : String} (h : parse_date d2 = none)
    (d1 : String) : compare_dates d1 d2 = false := by
  unfold compare_dates
  rw [h]
  cases parse_date d1 <;> rfl

/-- Claim C9 (confirmed): identity resolution fails soft.  A missing patient
store, an empty store, or a date of birth no accepted format parses (the
empty string included) all make `lookup_patient` return `none` — the New
outcome — rather than any error; in the source every remaining failure is
caught by the enclosing `try/except`, which returns `None` as well. -/
theorem c9_lookup_fails_soft :
    (∀ name dob, lookup_patient none name dob = none)
    ∧ (∀ name dob, lookup_patient (some []) name dob = none)
    ∧ (∀ (store : Option (List Patient)) (name dob : String),
        parse_date dob = none → lookup_patient store name dob = none) := by
  refine ⟨fun _ _ => rfl, fun _ _ => rfl, ?_⟩
  intro store name dob h
  cases store with
  | none => rfl
  | some df =>
    cases df with
    | nil => rfl
    | cons q qs =>
      simp only [lookup_patient, List.isEmpty_cons, Bool.false_eq_true, if_false]
      have h1 : (q :: qs).find? (fun p =>
          normalize_name p.name == normalize_name name
            && compare_dates p.DOB dob) = none := by
        rw [List.find?_eq_none]
        intro p _
        simp [compare_dates_of_parse_none h]
      have h2 : (q :: qs).find? (fun p =>
          partial_name_match (normalize_name p.name) (normalize_name name)
            && compare_dates p.DOB dob) = none := by
        rw [List.find?_eq_none]
        intro p _
        simp [compare_dates_of_parse_none h]
      rw [h1, h2]

/-- Claim C9 witness: the empty date of birth does not parse, and resolving
against a populated store with it yields New. -/
theorem c9_lookup_fails_soft_witness :
    parse_date "" = none
    ∧ lookup_patient (some [patJohn]) "John Smith" "" = none :=
  ⟨by decide, c9_lookup_fails_soft.2.2 (some [patJohn]) "John Smith" "" (by decide)⟩

/-! ## C10 -/

/-- Claim C10 (confirmed): (a) the row created for a first-time patient
carries the literal `New Patient` sentinel as its visit history, not an
empty sequence; (b) the first visit-history update for a patient whose
history is the sentinel *replaces* it with the single visit date; (c) every
later update appends the new date after a `"; "` separator. -/
theorem c10_visit_history_lifecycle :
    (∀ (store : Option (List Patient)) (pd : PatientData),
      (next_patient_id (store.getD [])).isSome = true →
        ((update_patient_csv_with_new_patient store pd).1.getD []).length
            = (store.getD []).length + 1
        ∧ (((update_patient_csv_with_new_patient store pd).1.getD []).drop
              (store.getD []).length).all
            (fun p => p.visit_history == some "New Patient") = true)
    ∧ (∀ (df : List Patient) (pid d : String),
        df.any (fun p => p.patient_id == pid) = true →
        (∀ p ∈ df, p.patient_id = pid → p.visit_history = some "New Patient") →
        (update_patient_visit_history (some df) pid d).2 = true
        ∧ ((update_patient_visit_history (some df) pid d).1.getD []).all
            (fun p => !(p.patient_id == pid) || (p.visit_history == some d)) = true)
    ∧ (∀ (df : List Patient) (pid d h : String),
        ¬ h = "New Patient" →
        df.any (fun p => p.patient_id == pid) = true →
        (∀ p ∈ df, p.patient_id = pid → p.visit_history = some h) →
        ((update_patient_visit_history (some df) pid d).1.getD []).all
            (fun p => !(p.patient_id == pid)
              || (p.visit_history == some (h ++ "; " ++ d))) = true) := by
  refine ⟨?_, ?_, ?_⟩
  · intro store pd hid
    obtain ⟨nid, hn⟩ := Option.isSome_iff_exists.mp hid
    simp only [update_patient_csv_with_new_patient, hn]
    constructor
    · simp
    · simp only [Option.getD_some]
      rw [List.drop_left]
      simp [new_patient_row]
  · intro df pid d hany hall
    have hfind : ∀ q, df.find? (fun p => p.patient_id == pid) = some q →
        q.visit_history = some "New Patient" := by
      intro q hq
      have hmem := List.mem_of_find?_eq_some hq
      have hpred := List.find?_some hq
      exact hall q hmem (by simpa using hpred)
    simp only [update_patient_visit_history, hany, if_true]
    obtain ⟨q, hq⟩ := Option.isSome_iff_exists.mp (by
      rw [List.find?_isSome]
      exact List.any_eq_true.mp hany)
    have hcur := hfind q hq
    refine ⟨trivial, ?_⟩
    simp only [hq, hcur, beq_self_eq_true, if_true, Option.getD_some]
    rw [List.all_eq_true]
    intro x hx
    obtain ⟨p, hp, rfl⟩ := List.mem_map.mp hx
    by_cases hm : p.patient_id == pid
    · simp [hm]
    · simp only [Bool.not_eq_true] at hm
      simp [hm]
  · intro df pid d h hne hany hall
    have hfind : ∀ q, df.find? (fun p => p.patient_id == pid) = some q →
        q.visit_history = some h := by
      intro q hq
      have hmem := List.mem_of_find?_eq_some hq
      have hpred := List.find?_some hq
      exact hall q hmem (by simpa using hpred)
    simp only [update_patient_visit_history, hany, if_true]
    obtain ⟨q, hq⟩ := Option.isSome_iff_exists.mp (by
      rw [List.find?_isSome]
      exact List.any_eq_true.mp hany)
    have hcur := hfind q hq
    have hbe : (h == "New Patient") = false := by
      cases hb : h == "New Patient"
      · rfl
      · exact absurd (by simpa using hb) hne
    simp only [hq, hcur, hbe, Bool.false_eq_true, if_false, Option.getD_some]
    rw [List.all_eq_true]
    intro x hx
    obtain ⟨p, hp, rfl⟩ := List.mem_map.mp hx
    by_cases hm : p.patient_id == pid
    · simp [hm]
    · simp only [Bool.not_eq_true] at hm
      simp [hm]

/-- Claim C10 witness: a store created from empty gets the sentinel row; the
sentinel row's first update becomes the bare date; John Smith's non-sentinel
history gets `"; "` plus the date appended. -/
theorem c10_visit_history_lifecycle_witness :
    (((update_patient_csv_with_new_patient (some ([] : List Patient)) pdBob).1.getD
        []).drop 0).all (fun p => p.visit_history == some "New Patient") = true
    ∧ ((update_patient_visit_history (some [patNew]) "PAT1000" "06/06/2024").1.getD
        []).all (fun p => !(p.patient_id == "PAT1000")
          || (p.visit_history == some "06/06/2024")) = true
    ∧ ((update_patient_visit_history (some [patJohn]) "PAT1000" "06/06/2024").1.getD
        []).all (fun p => !(p.patient_id == "PAT1000")
          || (p.visit_history == some ("03/04/2021" ++ "; " ++ "06/06/2024"))) = true :=
  ⟨(c10_visit_history_lifecycle.1 (some ([] : List Patient)) pdBob (by decide)).2,
   (c10_visit_history_lifecycle.2.1 [patNew] "PAT1000" "06/06/2024" (by decide)
      (by decide)).2,
   c10_visit_history_lifecycle.2.2 [patJohn] "PAT1000" "06/06/2024" "03/04/2021"
      (by decide) (by decide) (by decide)⟩

/-! ## C3 -/

/-- Claim C3 amended (the visit-history clause corrected): for every booking
request, an unknown identity books with duration 60 and patient_type `New`
and appends a patient row (whose history part claim C10 covers), a known
identity books with duration 30 and patient_type `Returning` — but the
booking path leaves the patient store untouched for a returning patient: no
visit-history entry is added, because the pipeline never calls
`PatientManager.update_patient_visit_history`. -/
theorem c3_duration_patient_type (appointment_id full_name dob_str phone email
    preferred_doctor insurance_provider member_id group_number : String)
    (slot : SlotChoice) (st : SysState) :
    (process_appointment_form appointment_id true st full_name dob_str phone email
        preferred_doctor insurance_provider member_id group_number slot).2
      = some appointment_id
    ∧ (process_appointment_form appointment_id true st full_name dob_str phone email
        preferred_doctor insurance_provider member_id group_number slot).1.appointments.map
          (fun a => (a.duration_minutes, a.patient_type))
        = st.appointments.map (fun a => (a.duration_minutes, a.patient_type))
          ++ [if (lookup_patient st.patients full_name dob_str).isSome
              then ((30 : Nat), "Returning") else (60, "New")]
    ∧ ((lookup_patient st.patients full_name dob_str).isSome = true →
        (process_appointment_form appointment_id true st full_name dob_str phone email
          preferred_doctor insurance_provider member_id group_number slot).1.patients
          = st.patients)
    ∧ (lookup_patient st.patients full_name dob_str = none →
        (next_patient_id (st.patients.getD [])).isSome = true →
        ((process_appointment_form appointment_id true st full_name dob_str phone email
            preferred_doctor insurance_provider member_id group_number
            slot).1.patients.getD []).length
            = (st.patients.getD []).length + 1
        ∧ (((process_appointment_form appointment_id true st full_name dob_str phone
              email preferred_doctor insurance_provider member_id group_number
              slot).1.patients.getD []).drop (st.patients.getD []).length).all
            (fun p => p.visit_history == some "New Patient") = true) := by
  cases hr : lookup_patient st.patients full_name dob_str with
  | some p =>
    refine ⟨?_, ?_, ?_, ?_⟩
    · simp [process_appointment_form, book_appointment, hr]
    · simp [process_appointment_form, book_appointment, hr, mk_appointment_record]
    · intro _
      simp [process_appointment_form, book_appointment, hr]
    · intro h4
      exact absurd h4 (by simp)
  | none =>
    refine ⟨?_, ?_, ?_, ?_⟩
    · simp [process_appointment_form, book_appointment, hr]
    · simp [process_appointment_form, book_appointment, hr, mk_appointment_record]
    · intro h3
      exact absurd h3 (by simp)
    · intro _ hid
      obtain ⟨nid, hn⟩ := Option.isSome_iff_exists.mp hid
      constructor
      · simp [process_appointment_form, book_appointment, hr,
          update_patient_csv_with_new_patient, hn]
      · simp [process_appointment_form, book_appointment, hr,
          update_patient_csv_with_new_patient, hn, List.drop_left, new_patient_row]

/-- Claim C3 witness: the returning instance (John Smith, store unchanged)
and the new-patient instance (Alice Wong against an empty store, one row
added). -/
theorem c3_duration_patient_type_witness :
    (process_appointment_form "APT1" true stRet "John Smith" "01/02/1980" "p"
        "e@x.com" "Dr. Smith" "Aetna" "M1" "" choiceFree).1.patients
      = stRet.patients
    ∧ ((process_appointment_form "APT9" true
          ⟨[], some [slotFree], some []⟩ "Alice Wong" "05/05/1990" "p" "e@x.com"
          "Dr. Smith" "Aetna" "M1" "" choiceFree).1.patients.getD []).length = 1 :=
  ⟨(c3_duration_patient_type "APT1" "John Smith" "01/02/1980" "p" "e@x.com"
      "Dr. Smith" "Aetna" "M1" "" choiceFree stRet).2.2.1 (by decide),
   ((c3_duration_patient_type "APT9" "Alice Wong" "05/05/1990" "p" "e@x.com"
      "Dr. Smith" "Aetna" "M1" "" choiceFree
      ⟨[], some [slotFree], some []⟩).2.2.2 (by decide) (by decide)).1⟩
